import Mathlib

/-!
Shallow embedding of the PyRedactor core model
(`src/pyredactor/core/entities/{rectangle,page,document}.py`,
`src/pyredactor/core/services/{redaction,document_management}.py`,
`src/pyredactor/infrastructure/persistence/file_system_repository.py`).

Python floats are modelled as rationals (`ℚ`); Python ints as `Int`;
Python in-place mutation as explicit state passing (a mutating method on an
object becomes a function returning the updated value, paired with the
method's return value).  PIL images are an external collaborator: the model
is parameterised over an opaque image type `Img` together with the image
operations the services call (`ImgOps`).  `copy.deepcopy` and `Image.copy`
are the identity in a value-semantics model.
-/

/-- Image-space point, Python `Tuple[float, float]`. -/
abbrev Point : Type := ℚ × ℚ

/-- Embeds `RectangleEntity` from `core/entities/rectangle.py`. -/
structure RectangleEntity where
  id : String
  start_point : Point
  end_point : Point
  color : String
deriving DecidableEq, Repr

/-- Construction of a `RectangleEntity`: the dataclass constructor runs
`__post_init__`, which normalizes the coordinates with min/max. -/
def mkRect (id : String) (sp ep : Point) (color : String) : RectangleEntity :=
  let left := min sp.1 ep.1
  let right := max sp.1 ep.1
  let top := min sp.2 ep.2
  let bottom := max sp.2 ep.2
  { id := id, start_point := (left, top), end_point := (right, bottom), color := color }

/-- Embeds `RectangleEntity.move`: returns a fresh entity (running `__post_init__`). -/
def RectangleEntity.move (r : RectangleEntity) (delta_x delta_y : ℚ) : RectangleEntity :=
  mkRect r.id (r.start_point.1 + delta_x, r.start_point.2 + delta_y)
    (r.end_point.1 + delta_x, r.end_point.2 + delta_y) r.color

/-- Embeds `RectangleEntity.resize`: new end = start + (w, h), keeping `start_point`
as given; the fresh entity again runs `__post_init__`. -/
def RectangleEntity.resize (r : RectangleEntity) (new_width new_height : ℚ) : RectangleEntity :=
  mkRect r.id r.start_point
    (r.start_point.1 + new_width, r.start_point.2 + new_height) r.color

/-- Embeds `RectangleEntity.change_color`. -/
def RectangleEntity.change_color (r : RectangleEntity) (new_color : String) : RectangleEntity :=
  mkRect r.id r.start_point r.end_point new_color

/-- Normalization invariant of the spec: `start.x ≤ end.x ∧ start.y ≤ end.y`. -/
def RectangleEntity.normalized (r : RectangleEntity) : Prop :=
  r.start_point.1 ≤ r.end_point.1 ∧ r.start_point.2 ≤ r.end_point.2

/-- Embeds `PageEntity` from `core/entities/page.py` (the `uuid` default of `id` is
irrelevant to the claims; `image` is the collaborator image type). -/
structure PageEntity (Img : Type) where
  id : String
  page_number : Int
  image : Option Img
  rectangles : List RectangleEntity
  size : Int × Int
deriving DecidableEq, Repr

/-- Embeds `PageEntity.add_rectangle`: appends, always returns `True`. -/
def PageEntity.add_rectangle {Img : Type} (page : PageEntity Img)
    (rectangle : RectangleEntity) : PageEntity Img × Bool :=
  ({ page with rectangles := page.rectangles ++ [rectangle] }, true)

/-- Helper for `remove_rectangle`: delete the first rectangle with the given
id (the Python loop deletes at the first matching index). -/
def removeFirstById : List RectangleEntity → String → List RectangleEntity
  | [], _ => []
  | r :: rs, rid => if r.id = rid then rs else r :: removeFirstById rs rid

/-- Embeds `PageEntity.remove_rectangle`: removes the first rectangle with the id and
returns `True`, or returns `False` leaving the list unchanged. -/
def PageEntity.remove_rectangle {Img : Type} (page : PageEntity Img)
    (rectangle_id : String) : PageEntity Img × Bool :=
  if page.rectangles.any (fun r => r.id = rectangle_id) then
    ({ page with rectangles := removeFirstById page.rectangles rectangle_id }, true)
  else
    (page, false)

/-- Embeds `PageEntity.get_rectangle`: first rectangle with the id, if any. -/
def PageEntity.get_rectangle {Img : Type} (page : PageEntity Img)
    (rectangle_id : String) : Option RectangleEntity :=
  page.rectangles.find? (fun r => r.id = rectangle_id)

/-- Embeds `PageEntity.clear_rectangles`: empties the list, returns the old count. -/
def PageEntity.clear_rectangles {Img : Type} (page : PageEntity Img) :
    PageEntity Img × Int :=
  ({ page with rectangles := [] }, (page.rectangles.length : Int))

/-- Embeds `PageEntity.undo_last_rectangle`: pops the last rectangle if any. -/
def PageEntity.undo_last_rectangle {Img : Type} (page : PageEntity Img) :
    PageEntity Img × Bool :=
  if page.rectangles.isEmpty then (page, false)
  else ({ page with rectangles := page.rectangles.dropLast }, true)

/-- Embeds `DocumentEntity` from `core/entities/document.py`; `metadata` is a
free-form dict, modelled as an association list. -/
structure DocumentEntity (Img : Type) where
  id : String
  file_path : String
  pages : List (PageEntity Img)
  current_page_index : Int
  metadata : List (String × String)
deriving DecidableEq, Repr

/-- Embeds `DocumentEntity.page_count`. -/
def DocumentEntity.page_count {Img : Type} (document : DocumentEntity Img) : Int :=
  (document.pages.length : Int)

/-- Embeds `DocumentEntity.set_current_page`: bounds-checked index update. -/
def DocumentEntity.set_current_page {Img : Type} (document : DocumentEntity Img)
    (page_index : Int) : DocumentEntity Img × Bool :=
  if 0 ≤ page_index ∧ page_index < (document.pages.length : Int) then
    ({ document with current_page_index := page_index }, true)
  else
    (document, false)

/-- Embeds `DocumentEntity.next_page`. -/
def DocumentEntity.next_page {Img : Type} (document : DocumentEntity Img) :
    DocumentEntity Img × Bool :=
  if document.current_page_index < (document.pages.length : Int) - 1 then
    ({ document with current_page_index := document.current_page_index + 1 }, true)
  else
    (document, false)

/-- Embeds `DocumentEntity.previous_page`. -/
def DocumentEntity.previous_page {Img : Type} (document : DocumentEntity Img) :
    DocumentEntity Img × Bool :=
  if 0 < document.current_page_index then
    ({ document with current_page_index := document.current_page_index - 1 }, true)
  else
    (document, false)

/-- Default `PageEntity` used for the guarded list accesses
`document.pages[page_index]` (every use is under a bounds check). -/
def emptyPage (Img : Type) : PageEntity Img :=
  { id := "", page_number := 0, image := none, rectangles := [], size := (0, 0) }

/-- Guarded Python indexing `document.pages[page_index]` for an `Int` index
already known to satisfy `0 ≤ page_index < len(pages)`. -/
def pageAt {Img : Type} (document : DocumentEntity Img) (page_index : Int) :
    PageEntity Img :=
  document.pages.getD page_index.toNat (emptyPage Img)

/-- Embeds `RedactionService.move_redaction_rectangle` from
`core/services/redaction.py`: look up by id; if found, remove the old entry
and append the moved copy (`page.add_rectangle`), returning `True`; else
`False` with no mutation. -/
def move_redaction_rectangle {Img : Type} (page : PageEntity Img)
    (rectangle_id : String) (delta_x delta_y : ℚ) : PageEntity Img × Bool :=
  match page.get_rectangle rectangle_id with
  | some rectangle =>
      (page.remove_rectangle rectangle_id).1.add_rectangle
        (rectangle.move delta_x delta_y)
  | none => (page, false)

/-- Embeds `RedactionService.resize_redaction_rectangle`: same remove-then-append
pattern with `RectangleEntity.resize`. -/
def resize_redaction_rectangle {Img : Type} (page : PageEntity Img)
    (rectangle_id : String) (new_width new_height : ℚ) : PageEntity Img × Bool :=
  match page.get_rectangle rectangle_id with
  | some rectangle =>
      (page.remove_rectangle rectangle_id).1.add_rectangle
        (rectangle.resize new_width new_height)
  | none => (page, false)

/-- Embeds `RedactionService.change_redaction_color`: same pattern with
`RectangleEntity.change_color`. -/
def change_redaction_color {Img : Type} (page : PageEntity Img)
    (rectangle_id : String) (new_color : String) : PageEntity Img × Bool :=
  match page.get_rectangle rectangle_id with
  | some rectangle =>
      (page.remove_rectangle rectangle_id).1.add_rectangle
        (rectangle.change_color new_color)
  | none => (page, false)

/-- Undo snapshot pushed by `DocumentManagementService.push_undo_state`:
the Python dict with keys `page_index`, `image`, `rectangles`. -/
structure Snapshot (Img : Type) where
  page_index : Int
  image : Option Img
  rectangles : List RectangleEntity
deriving DecidableEq, Repr

/-- Mutable state of `DocumentManagementService`: the current document and
the undo stack (most recent snapshot last, matching `list.append`/`pop`). -/
structure ServiceState (Img : Type) where
  current_document : Option (DocumentEntity Img)
  undo_stack : List (Snapshot Img)
deriving DecidableEq, Repr

/-- The snapshot `push_undo_state` builds for a valid page index
(`copy.deepcopy` of the rectangles and `Image.copy` are the identity in the
value-semantics model). -/
def mkSnapshot {Img : Type} (document : DocumentEntity Img) (page_index : Int) :
    Snapshot Img :=
  { page_index := page_index
    image := (pageAt document page_index).image
    rectangles := (pageAt document page_index).rectangles }

/-- The stack-size limit in `push_undo_state`: after appending, if the length
exceeds 10, `pop(0)` discards the oldest snapshot. -/
def trimStack {Img : Type} (stack : List (Snapshot Img)) : List (Snapshot Img) :=
  if 10 < stack.length then stack.drop 1 else stack

/-- Embeds `DocumentManagementService.push_undo_state`: snapshots the page of the
current document at `page_index` when the index is valid, appending to the
undo stack and evicting the oldest entry beyond depth 10. -/
def push_undo_state {Img : Type} (s : ServiceState Img) (page_index : Int) :
    ServiceState Img :=
  match s.current_document with
  | some document =>
      if 0 ≤ page_index ∧ page_index < (document.pages.length : Int) then
        { s with undo_stack := trimStack (s.undo_stack ++ [mkSnapshot document page_index]) }
      else s
  | none => s

/-- Embeds `DocumentManagementService.undo`: pops the most recent snapshot; if the
current document exists and the recorded page index is valid, restores that
page's image and rectangles and returns the index, else returns `None`
(the snapshot stays popped either way). -/
def undo {Img : Type} (s : ServiceState Img) : ServiceState Img × Option Int :=
  match s.undo_stack.getLast? with
  | none => (s, none)
  | some st =>
      let rest := s.undo_stack.dropLast
      match s.current_document with
      | some document =>
          if 0 ≤ st.page_index ∧ st.page_index < (document.pages.length : Int) then
            let page := pageAt document st.page_index
            let page' := { page with image := st.image, rectangles := st.rectangles }
            ({ current_document :=
                 some { document with pages := document.pages.set st.page_index.toNat page' }
               undo_stack := rest },
             some st.page_index)
          else ({ s with undo_stack := rest }, none)
      | none => ({ s with undo_stack := rest }, none)

/-- Embeds `DocumentManagementService.navigate_to_page`: unconditionally assigns
`document.current_page_index = page_index` (no bounds check, no return
value — the Python method returns `None`). -/
def navigate_to_page {Img : Type} (document : DocumentEntity Img)
    (page_index : Int) : DocumentEntity Img :=
  { document with current_page_index := page_index }

/-- Embeds `DocumentManagementService.navigate_next_page`. -/
def navigate_next_page {Img : Type} (document : DocumentEntity Img) :
    DocumentEntity Img × Bool :=
  if document.current_page_index < document.page_count - 1 then
    ({ document with current_page_index := document.current_page_index + 1 }, true)
  else
    (document, false)

/-- Embeds `DocumentManagementService.navigate_previous_page`. -/
def navigate_previous_page {Img : Type} (document : DocumentEntity Img) :
    DocumentEntity Img × Bool :=
  if 0 < document.current_page_index then
    ({ document with current_page_index := document.current_page_index - 1 }, true)
  else
    (document, false)

/-- Operations of the image collaborator (PIL) used by the page transforms:
`rotate` is `image.rotate(angle, expand=True, fillcolor="white")`, `crop`
takes the box `(left, upper, right, lower)`, `resizeTo` is
`image.resize(target, LANCZOS)`, `size` is `image.size`. -/
structure ImgOps (Img : Type) where
  rotate : Img → ℚ → Img
  crop : Img → Int → Int → Int → Int → Img
  resizeTo : Img → Int × Int → Img
  size : Img → Int × Int

/-- Embeds `DocumentManagementService.rotate_page`: for a valid index, push an undo
snapshot, then, if the page has an image, replace it by the rotated copy and
clear the page's rectangles, returning `True`; otherwise `False`. -/
def rotate_page {Img : Type} (ops : ImgOps Img) (s : ServiceState Img)
    (document : DocumentEntity Img) (page_index : Int) (angle : ℚ) :
    ServiceState Img × DocumentEntity Img × Bool :=
  if 0 ≤ page_index ∧ page_index < (document.pages.length : Int) then
    let s' := push_undo_state s page_index
    let page := pageAt document page_index
    match page.image with
    | some img =>
        let page' := { page with image := some (ops.rotate img angle), rectangles := [] }
        (s', { document with pages := document.pages.set page_index.toNat page' }, true)
    | none => (s', document, false)
  else (s, document, false)

/-- Embeds `DocumentManagementService.crop_page`: for a valid index, push an undo
snapshot; if the page has an image, clamp the requested box to the image
bounds; if the clamped box is non-degenerate, crop (upscaling to canonical
A4 dimensions when the aspect is within 5% of A4 portrait or landscape),
replace the image and clear the rectangles, returning `True`; otherwise
`False`.  The `except` handler around the PIL calls is unreachable here
because the modelled collaborator operations are total. -/
def crop_page {Img : Type} (ops : ImgOps Img) (s : ServiceState Img)
    (document : DocumentEntity Img) (page_index x y width height : Int) :
    ServiceState Img × DocumentEntity Img × Bool :=
  if 0 ≤ page_index ∧ page_index < (document.pages.length : Int) then
    let s' := push_undo_state s page_index
    let page := pageAt document page_index
    match page.image with
    | some img =>
        let img_w := (ops.size img).1
        let img_h := (ops.size img).2
        let x' := max 0 x
        let y' := max 0 y
        let width' := min width (img_w - x')
        let height' := min height (img_h - y')
        if 0 < width' ∧ 0 < height' then
          let cropped := ops.crop img x' y' (x' + width') (y' + height')
          let q : ℚ := (width' : ℚ) / (height' : ℚ)
          let a4_portrait : ℚ := 2480 / 3508
          let a4_landscape : ℚ := 3508 / 2480
          let target : Option (Int × Int) :=
            if |q - a4_portrait| < 0.05 * a4_portrait then some (2480, 3508)
            else if |q - a4_landscape| < 0.05 * a4_landscape then some (3508, 2480)
            else none
          let final :=
            match target with
            | some t => ops.resizeTo cropped t
            | none => cropped
          let page' := { page with image := some final, rectangles := [] }
          (s', { document with pages := document.pages.set page_index.toNat page' }, true)
        else (s', document, false)
    | none => (s', document, false)
  else (s, document, false)

/-- The JSON record written by `save_work_file`
(`infrastructure/persistence/file_system_repository.py`): per-page rectangle
triples, page count, current page, and the two settings it persists. -/
structure WorkData where
  rectangles : List (List (Point × Point × String))
  pages : Int
  current_page : Int
  fill_color : String
  output_quality : String
deriving DecidableEq, Repr

/-- The work-file directory, as a map from encoded side-file name to the
stored record (`none` = file absent); JSON round-trips exactly in the model. -/
def WorkStore : Type := String → Option WorkData

/-- The two settings fields `save_work_file` reads (with their defaults
filled in by the caller). -/
structure WorkSettings where
  fill_color : String
  output_quality : String
deriving DecidableEq, Repr

/-- Embeds `FileSystemDocumentRepository._export_rectangles`: per page the list of
`[start, end, color]` triples; `None` when no page has any rectangle. -/
def export_rectangles {Img : Type} (pages : List (PageEntity Img)) :
    Option (List (List (Point × Point × String))) :=
  let rectangles := pages.map
    (fun page => page.rectangles.map
      (fun rect => (rect.start_point, rect.end_point, rect.color)))
  if rectangles.any (fun item => decide (0 < item.length)) then some rectangles
  else none

/-- Embeds `FileSystemDocumentRepository.save_work_file`, parameterised over the
path-hashing function `encode` (`_encode_filepath`, MD5 of the path — only
its value at the saved path matters to the claims).  When some page has
rectangles the record is written under `encode file_path`; otherwise
`_delete_workfile` removes any side-file at that name.  Either way the
method returns `True`.  `_delete_oldest_files` is not modelled: it sorts the
directory by creation time (real time is outside the model) and, for the
non-negative history lengths the settings allow, removes only files other
than the one just written (the newest). -/
def save_work_file {Img : Type} (store : WorkStore) (encode : String → String)
    (document : DocumentEntity Img) (file_path : String)
    (settings : WorkSettings) : WorkStore × Bool :=
  match export_rectangles document.pages with
  | some rects =>
      let work_data : WorkData :=
        { rectangles := rects
          pages := document.page_count
          current_page := document.current_page_index
          fill_color := settings.fill_color
          output_quality := settings.output_quality }
      (fun k => if k = encode file_path then some work_data else store k, true)
  | none =>
      (fun k => if k = encode file_path then none else store k, true)

/-- Embeds `FileSystemDocumentRepository.load_work_file`: looks the side-file up by
the encoded path; absent file gives `None`. -/
def load_work_file (store : WorkStore) (encode : String → String)
    (file_path : String) : Option WorkData :=
  store (encode file_path)

/-- A popped snapshot is restorable when a current document exists and the
snapshot's page index is a valid index of it (the guard inside `undo`). -/
def snapRestorable {Img : Type} (d : Option (DocumentEntity Img))
    (st : Snapshot Img) : Prop :=
  ∃ document, d = some document ∧
    0 ≤ st.page_index ∧ st.page_index < (document.pages.length : Int)

/-- Concrete rectangle used in examples. -/
def rectA : RectangleEntity := mkRect "a" (0, 0) (1, 1) "black"

/-- Concrete rectangle used in examples. -/
def rectB : RectangleEntity := mkRect "b" (2, 2) (3, 3) "red"

/-- Concrete two-rectangle page used in examples. -/
def pageAB : PageEntity Unit :=
  { id := "p", page_number := 0, image := none, rectangles := [rectA, rectB],
    size := (0, 0) }

/-- Concrete one-page document used in examples. -/
def docNav : DocumentEntity Unit :=
  { id := "d", file_path := "", pages := [pageAB], current_page_index := 0,
    metadata := [] }

/-- Trivial image collaborator over `Unit` used in examples: every operation
returns the unit image, size is a fixed 100 × 100. -/
def opsU : ImgOps Unit :=
  { rotate := fun i _ => i, crop := fun i _ _ _ _ => i,
    resizeTo := fun i _ => i, size := fun _ => (100, 100) }

/-- Service state with no current document and empty undo stack. -/
def stU : ServiceState Unit := { current_document := none, undo_stack := [] }

/-- Concrete page that has an image, used in rotate/crop examples. -/
def pageImg : PageEntity Unit :=
  { id := "q", page_number := 0, image := some (), rectangles := [rectA],
    size := (100, 100) }

/-- Concrete one-page document whose page has an image. -/
def docImg : DocumentEntity Unit :=
  { id := "e", file_path := "", pages := [pageImg], current_page_index := 0,
    metadata := [] }

/-- Concrete page with one rectangle, for persistence examples. -/
def pageR : PageEntity Unit :=
  { id := "r", page_number := 0, image := none,
    rectangles := [{ id := "k", start_point := (1, 2), end_point := (3, 4),
                     color := "black" }],
    size := (0, 0) }

/-- Concrete one-page document with a rectangle, for persistence examples. -/
def docR : DocumentEntity Unit :=
  { id := "f", file_path := "/a.pdf", pages := [pageR],
    current_page_index := 0, metadata := [] }

/-- Concrete one-page document with no rectangles anywhere. -/
def docE : DocumentEntity Unit :=
  { id := "g", file_path := "/b.pdf", pages := [emptyPage Unit],
    current_page_index := 0, metadata := [] }

/-- Concrete settings used in persistence examples. -/
def wsEx : WorkSettings := { fill_color := "black", output_quality := "ebook" }

/-- Concrete stored record used in persistence examples. -/
def wdEx : WorkData :=
  { rectangles := [[]], pages := 1, current_page := 0, fill_color := "black",
    output_quality := "ebook" }

/-- Empty work-file directory. -/
def store0 : WorkStore := fun _ => none

/-- Work-file directory already holding a side-file named "p". -/
def storeP : WorkStore := fun k => if k = "p" then some wdEx else none

/-- Helper: a rectangle built by `mkRect` satisfies the normalization
invariant. -/
theorem mkRect_normalized (id : String) (sp ep : Point) (c : String) :
    (mkRect id sp ep c).normalized := by
  refine ⟨?_, ?_⟩ <;> simp [mkRect, RectangleEntity.normalized, min_le_max]

/-- C6: every construction and every mutation (`move`, `resize`,
`change_color`) of a rectangle yields `start.x ≤ end.x ∧ start.y ≤ end.y`,
and constructing with start = (50, 60), end = (10, 20) normalizes to
start = (10, 20), end = (50, 60). -/
theorem rectangle_normalization_invariant :
    (∀ (id : String) (sp ep : Point) (c : String), (mkRect id sp ep c).normalized)
    ∧ (∀ (r : RectangleEntity) (dx dy : ℚ), (r.move dx dy).normalized)
    ∧ (∀ (r : RectangleEntity) (w h : ℚ), (r.resize w h).normalized)
    ∧ (∀ (r : RectangleEntity) (c : String), (r.change_color c).normalized)
    ∧ (∀ (id c : String),
        (mkRect id (50, 60) (10, 20) c).start_point = (10, 20)
        ∧ (mkRect id (50, 60) (10, 20) c).end_point = (50, 60)) := by
  refine ⟨mkRect_normalized, ?_, ?_, ?_, ?_⟩
  · intro r dx dy; exact mkRect_normalized _ _ _ _
  · intro r w h; exact mkRect_normalized _ _ _ _
  · intro r c; exact mkRect_normalized _ _ _ _
  · intro id c
    constructor <;> simp [mkRect] <;> norm_num

/-- C7 counterexample: `resize` with a negative width does not keep the
start point fixed (nor set end = start + (w, h)): the constructor's
normalization swaps the coordinates. -/
theorem resize_negative_width_moves_start :
    ¬ (((mkRect "r" (0, 0) (10, 10) "black").resize (-5) 3).start_point
         = (mkRect "r" (0, 0) (10, 10) "black").start_point
       ∧ ((mkRect "r" (0, 0) (10, 10) "black").resize (-5) 3).end_point
         = ((mkRect "r" (0, 0) (10, 10) "black").start_point.1 + (-5),
            (mkRect "r" (0, 0) (10, 10) "black").start_point.2 + 3)) := by
  rintro ⟨h1, -⟩
  simp [RectangleEntity.resize, mkRect, min_def, max_def] at h1

/-- C7 (amended): for non-negative dimensions, `resize` keeps the start
point fixed and sets the end point to start + (w, h). -/
theorem resize_keeps_start_for_nonneg (r : RectangleEntity) (w h : ℚ)
    (hw : 0 ≤ w) (hh : 0 ≤ h) :
    (r.resize w h).start_point = r.start_point
    ∧ (r.resize w h).end_point = (r.start_point.1 + w, r.start_point.2 + h) := by
  have h1 : min r.start_point.1 (r.start_point.1 + w) = r.start_point.1 :=
    min_eq_left (le_add_of_nonneg_right hw)
  have h2 : min r.start_point.2 (r.start_point.2 + h) = r.start_point.2 :=
    min_eq_left (le_add_of_nonneg_right hh)
  have h3 : max r.start_point.1 (r.start_point.1 + w) = r.start_point.1 + w :=
    max_eq_right (le_add_of_nonneg_right hw)
  have h4 : max r.start_point.2 (r.start_point.2 + h) = r.start_point.2 + h :=
    max_eq_right (le_add_of_nonneg_right hh)
  refine ⟨?_, ?_⟩ <;> simp [RectangleEntity.resize, mkRect, h1, h2, h3, h4]

/-- Witness for C7's amended theorem at rectangle `rectA`, w = 2, h = 3. -/
theorem resize_keeps_start_for_nonneg_witness :
    (0 : ℚ) ≤ 2 ∧ (0 : ℚ) ≤ 3
    ∧ ((rectA.resize 2 3).start_point = rectA.start_point
       ∧ (rectA.resize 2 3).end_point
         = (rectA.start_point.1 + 2, rectA.start_point.2 + 3)) :=
  ⟨by norm_num, by norm_num,
   resize_keeps_start_for_nonneg rectA 2 3 (by norm_num) (by norm_num)⟩

/-- C9: `undo` on an empty stack returns `None` and changes nothing (the
whole service state, hence every page's image and rectangle list, is
unchanged). -/
theorem undo_empty_stack_noop {Img : Type} (s : ServiceState Img)
    (h : s.undo_stack = []) : undo s = (s, none) := by
  simp [undo, h]

/-- Witness for C9 at the concrete state with no document and empty stack. -/
theorem undo_empty_stack_noop_witness :
    undo (⟨none, []⟩ : ServiceState Unit) = (⟨none, []⟩, none) :=
  undo_empty_stack_noop _ rfl

/-- C10: when the most recent snapshot is not restorable (no current
document, or its recorded page index is out of range), `undo` returns
`None` and alters no page, yet still pops the snapshot: the stack shrinks
by one. -/
theorem undo_unrestorable_still_pops {Img : Type} (s : ServiceState Img)
    (init : List (Snapshot Img)) (st : Snapshot Img)
    (h : s.undo_stack = init ++ [st])
    (hn : ¬ snapRestorable s.current_document st) :
    undo s = ({ s with undo_stack := init }, none) := by
  obtain ⟨d, stack⟩ := s
  simp only at h
  subst h
  cases d with
  | none => simp [undo, List.getLast?_concat, List.dropLast_concat]
  | some document =>
      have hc : ¬ (0 ≤ st.page_index ∧ st.page_index < (document.pages.length : Int)) :=
        fun hc => hn ⟨document, rfl, hc⟩
      simp [undo, List.getLast?_concat, List.dropLast_concat, hc]

/-- Witness for C10: one unrestorable snapshot (no current document); the
stack shrinks to empty, nothing is restored. -/
theorem undo_unrestorable_still_pops_witness :
    undo (⟨none, [⟨0, none, []⟩]⟩ : ServiceState Unit) = (⟨none, []⟩, none) :=
  undo_unrestorable_still_pops _ [] ⟨0, none, []⟩ rfl
    (by simp [snapRestorable])

/-- C8: `DocumentManagementService.navigate_to_page` performs no bounds
check — on the one-page document `docNav` it sets `current_page_index` to
5, which is outside `[0, page_count - 1]` (and the method returns no
boolean at all), contradicting the spec and the repository's own tests,
which expect it to delegate to the bounds-checked
`DocumentEntity.set_current_page` and return its boolean. -/
theorem navigate_to_page_no_bounds_check :
    (navigate_to_page docNav 5).current_page_index = 5
    ∧ docNav.pages.length = 1
    ∧ (docNav.set_current_page 5 = (docNav, false)) := by
  refine ⟨rfl, rfl, ?_⟩
  simp [DocumentEntity.set_current_page, docNav]

/-- C1 counterexample: on the two-rectangle page `pageAB`, moving "a"
returns true but the moved copy is appended at the end of the list, not put
back at its old sequence position — the resulting list is
`[rectB, moved rectA]`, not `[moved rectA, rectB]`, so z-order is not
preserved. -/
theorem move_appends_not_in_place :
    (move_redaction_rectangle pageAB "a" 1 1).2 = true
    ∧ (move_redaction_rectangle pageAB "a" 1 1).1.rectangles
        = [rectB, rectA.move 1 1]
    ∧ (move_redaction_rectangle pageAB "a" 1 1).1.rectangles
        ≠ [rectA.move 1 1, rectB] := by
  refine ⟨?_, ?_, ?_⟩ <;>
    simp [move_redaction_rectangle, PageEntity.get_rectangle,
      PageEntity.remove_rectangle, removeFirstById, PageEntity.add_rectangle,
      RectangleEntity.move, mkRect, pageAB, rectA, rectB, min_def, max_def]

/-- C1 (amended): `move(page, id, dx, dy)` removes the old entry (the first
rectangle with the id) and appends the moved copy (start + delta,
end + delta) at the end of the page's rectangle list — moving it to the top
of the z-order — and returns true; for an id not present it returns false
and leaves the page unchanged (no partial mutation). -/
theorem move_removes_then_appends {Img : Type} (page : PageEntity Img)
    (rid : String) (dx dy : ℚ) :
    (∀ r, page.get_rectangle rid = some r →
      move_redaction_rectangle page rid dx dy =
        ({ page with rectangles :=
            removeFirstById page.rectangles rid ++ [r.move dx dy] }, true))
    ∧ (page.get_rectangle rid = none →
      move_redaction_rectangle page rid dx dy = (page, false)) := by
  refine ⟨?_, ?_⟩
  · intro r hr
    have hr' := hr
    simp only [PageEntity.get_rectangle] at hr'
    have hmem : r ∈ page.rectangles := List.mem_of_find?_eq_some hr'
    have hid : r.id = rid := by
      have := List.find?_some hr'
      simpa using this
    have hany : page.rectangles.any (fun x => x.id = rid) = true :=
      List.any_eq_true.mpr ⟨r, hmem, by simpa using hid⟩
    simp only [move_redaction_rectangle, hr]
    simp [PageEntity.remove_rectangle, hany, PageEntity.add_rectangle]
  · intro hn
    simp only [move_redaction_rectangle, hn]

/-- Witness for C1's amended theorem: both the found branch (id "a" on
`pageAB`) and the not-found branch (id "zz"). -/
theorem move_removes_then_appends_witness :
    move_redaction_rectangle pageAB "a" 1 1
      = ({ pageAB with rectangles :=
            removeFirstById pageAB.rectangles "a" ++ [rectA.move 1 1] }, true)
    ∧ move_redaction_rectangle pageAB "zz" 1 1 = (pageAB, false) :=
  ⟨(move_removes_then_appends pageAB "a" 1 1).1 rectA rfl,
   (move_removes_then_appends pageAB "zz" 1 1).2 rfl⟩

/-- Helper: reading back the page just written by `pages.set` at a valid
index. -/
theorem pageAt_set_self {Img : Type} (document : DocumentEntity Img) (i : Int)
    (p : PageEntity Img) (h0 : 0 ≤ i) (hl : i < (document.pages.length : Int)) :
    pageAt { document with pages := document.pages.set i.toNat p } i = p := by
  have hn : i.toNat < document.pages.length := by omega
  simp [pageAt, List.getD_eq_getElem?_getD, List.getElem?_set_eq_of_lt p hn]

/-- C2: whenever `rotate_page` succeeds (returns true) the affected page's
rectangle list is empty afterwards, and likewise whenever `crop_page`
succeeds, regardless of the prior rectangle content. -/
theorem rotate_crop_clear_rectangles {Img : Type} (ops : ImgOps Img)
    (s s₂ : ServiceState Img) (d d₂ : DocumentEntity Img) (i j : Int)
    (angle : ℚ) (x y width height : Int) :
    ((rotate_page ops s d i angle).2.2 = true →
      (pageAt (rotate_page ops s d i angle).2.1 i).rectangles = [])
    ∧ ((crop_page ops s₂ d₂ j x y width height).2.2 = true →
      (pageAt (crop_page ops s₂ d₂ j x y width height).2.1 j).rectangles = []) := by
  constructor
  · simp only [rotate_page]
    split
    next hg =>
      split
      next img him =>
        intro _
        rw [pageAt_set_self d i _ hg.1 hg.2]
      next him =>
        intro ht
        simp at ht
    next hg =>
      intro ht
      simp at ht
  · simp only [crop_page]
    split
    next hg =>
      split
      next img him =>
        split
        next hwh =>
          intro _
          rw [pageAt_set_self d₂ j _ hg.1 hg.2]
        next hwh =>
          intro ht
          simp at ht
      next him =>
        intro ht
        simp at ht
    next hg =>
      intro ht
      simp at ht

/-- Witness for C2 at the concrete document `docImg`: a successful rotate
and a successful crop both leave the page's rectangle list empty. -/
theorem rotate_crop_clear_rectangles_witness :
    (pageAt (rotate_page opsU stU docImg 0 90).2.1 0).rectangles = []
    ∧ (pageAt (crop_page opsU stU docImg 0 0 0 50 50).2.1 0).rectangles = [] :=
  ⟨(rotate_crop_clear_rectangles opsU stU stU docImg docImg 0 0 90 0 0 50 50).1 rfl,
   (rotate_crop_clear_rectangles opsU stU stU docImg docImg 0 0 90 0 0 50 50).2 rfl⟩

/-- Helper: dropping at most the whole first list commutes with append. -/
theorem drop_sub_append {α : Type} (A B : List α) (n : Nat) (h : n ≤ A.length) :
    A.drop n ++ B = (A ++ B).drop n := by
  rw [List.drop_append_eq_append_drop, Nat.sub_eq_zero_of_le h, List.drop_zero]

/-- Helper: for stacks of length at most 11, the eviction step is a
front-drop by `length - 10`. -/
theorem trimStack_eq_drop {Img : Type} (l : List (Snapshot Img))
    (h : l.length ≤ 11) : trimStack l = l.drop (l.length - 10) := by
  unfold trimStack
  split
  next h10 =>
    have h1 : l.length - 10 = 1 := by omega
    rw [h1]
  next h10 =>
    have h0 : l.length - 10 = 0 := by omega
    rw [h0, List.drop_zero]

/-- Helper: `push_undo_state` on a state whose current document exists, at a
valid page index, appends the snapshot and evicts past depth 10. -/
theorem push_undo_state_valid {Img : Type} (s : ServiceState Img)
    (document : DocumentEntity Img) (i : Int)
    (hd : s.current_document = some document) (h0 : 0 ≤ i)
    (hl : i < (document.pages.length : Int)) :
    push_undo_state s i
      = { s with undo_stack := trimStack (s.undo_stack ++ [mkSnapshot document i]) } := by
  simp [push_undo_state, hd, h0, hl, mkSnapshot, pageAt]

/-- Helper: closed form of a sequence of valid pushes — the stack is the
last (at most 10) snapshots, oldest first. -/
theorem foldl_push_formula {Img : Type} (document : DocumentEntity Img)
    (idxs : List Int) :
    ∀ init : List (Snapshot Img), init.length ≤ 10 →
    (∀ i ∈ idxs, 0 ≤ i ∧ i < (document.pages.length : Int)) →
    idxs.foldl push_undo_state
        { current_document := some document, undo_stack := init }
      = { current_document := some document
          undo_stack := (init ++ idxs.map (mkSnapshot document)).drop
            (init.length + idxs.length - 10) } := by
  induction idxs with
  | nil =>
      intro init hle _
      simp only [List.foldl_nil, List.map_nil, List.append_nil, List.length_nil,
        Nat.add_zero]
      rw [Nat.sub_eq_zero_of_le hle, List.drop_zero]
  | cons i rest ih =>
      intro init hle hvalid
      have hv := hvalid i (by simp)
      rw [List.foldl_cons, push_undo_state_valid _ document i rfl hv.1 hv.2]
      simp only
      set D := init ++ [mkSnapshot document i] with hD
      have hDlen : D.length = init.length + 1 := by
        simp [hD]
      have hlen : D.length ≤ 11 := by omega
      rw [trimStack_eq_drop _ hlen]
      have hle' : (D.drop (D.length - 10)).length ≤ 10 := by
        simp only [List.length_drop]
        omega
      rw [ih _ hle' (fun k hk => hvalid k (by simp [hk]))]
      rw [drop_sub_append _ _ _ (Nat.sub_le _ _), List.drop_drop]
      have hlist : D ++ rest.map (mkSnapshot document)
          = init ++ (i :: rest).map (mkSnapshot document) := by
        rw [hD, List.map_cons, List.append_assoc, List.singleton_append]
      rw [hlist]
      have hidx : D.length - 10
            + ((D.drop (D.length - 10)).length + rest.length - 10)
          = init.length + (i :: rest).length - 10 := by
        simp only [List.length_drop, hDlen, List.length_cons]
        omega
      rw [hidx]

/-- C5: starting from an empty undo stack, any sequence of snapshot pushes
on valid page indices leaves at most 10 snapshots (the hard-coded maximum
depth), and after 15 = 10 + 5 pushes exactly the 10 most recent snapshots
remain, in push order (the oldest 5 evicted first). -/
theorem undo_stack_bounded_and_fifo {Img : Type} (document : DocumentEntity Img)
    (idxs : List Int)
    (hvalid : ∀ i ∈ idxs, 0 ≤ i ∧ i < (document.pages.length : Int)) :
    (idxs.foldl push_undo_state
        { current_document := some document, undo_stack := [] }).undo_stack.length ≤ 10
    ∧ (idxs.length = 15 →
        (idxs.foldl push_undo_state
            { current_document := some document, undo_stack := [] }).undo_stack
          = (idxs.map (mkSnapshot document)).drop 5) := by
  have h := foldl_push_formula document idxs [] (by simp) hvalid
  refine ⟨?_, ?_⟩
  · rw [h]
    simp only [List.nil_append, List.length_drop, List.length_map, List.length_nil]
    omega
  · intro h15
    rw [h]
    simp [h15]

/-- Witness for C5: 15 pushes of page index 0 on the one-page document
`docNav`. -/
theorem undo_stack_bounded_and_fifo_witness :
    ((List.replicate 15 (0 : Int)).foldl push_undo_state
        { current_document := some docNav, undo_stack := [] }).undo_stack.length ≤ 10
    ∧ ((List.replicate 15 (0 : Int)).length = 15 →
        ((List.replicate 15 (0 : Int)).foldl push_undo_state
            { current_document := some docNav, undo_stack := [] }).undo_stack
          = ((List.replicate 15 (0 : Int)).map (mkSnapshot docNav)).drop 5) :=
  undo_stack_bounded_and_fifo docNav (List.replicate 15 0) (by decide)

/-- C3: if at least one page has rectangles, saving the work file and then
loading it by the same source file path yields a record whose per-page
rectangle lists are exactly the document's rectangle lists: same start
points, same end points, same color strings, in the same order. -/
theorem save_load_roundtrip {Img : Type} (store : WorkStore)
    (encode : String → String) (document : DocumentEntity Img)
    (file_path : String) (settings : WorkSettings)
    (h : ∃ p ∈ document.pages, p.rectangles ≠ []) :
    ∃ wd, load_work_file
        (save_work_file store encode document file_path settings).1 encode file_path
        = some wd
      ∧ wd.rectangles = document.pages.map (fun page => page.rectangles.map
          (fun rect => (rect.start_point, rect.end_point, rect.color))) := by
  obtain ⟨p, hp, hne⟩ := h
  have hany : (document.pages.map (fun page => page.rectangles.map
      (fun rect => (rect.start_point, rect.end_point, rect.color)))).any
      (fun item => decide (0 < item.length)) = true := by
    refine List.any_eq_true.mpr ⟨p.rectangles.map
      (fun rect => (rect.start_point, rect.end_point, rect.color)),
      List.mem_map_of_mem _ hp, ?_⟩
    simp [List.length_pos, hne]
  have hexp : export_rectangles document.pages
      = some (document.pages.map (fun page => page.rectangles.map
          (fun rect => (rect.start_point, rect.end_point, rect.color)))) := by
    simp [export_rectangles, hany]
  have hload : load_work_file
      (save_work_file store encode document file_path settings).1 encode file_path
      = some { rectangles := document.pages.map (fun page => page.rectangles.map
                 (fun rect => (rect.start_point, rect.end_point, rect.color)))
               pages := document.page_count
               current_page := document.current_page_index
               fill_color := settings.fill_color
               output_quality := settings.output_quality } := by
    simp [load_work_file, save_work_file, hexp]
  exact ⟨_, hload, rfl⟩

/-- Witness for C3: the one-rectangle document `docR` saved into an empty
directory and loaded back by the same path. -/
theorem save_load_roundtrip_witness :
    (∃ p ∈ docR.pages, p.rectangles ≠ [])
    ∧ ∃ wd, load_work_file
        (save_work_file store0 (fun s => s) docR "/a.pdf" wsEx).1
          (fun s => s) "/a.pdf"
        = some wd
      ∧ wd.rectangles = docR.pages.map (fun page => page.rectangles.map
          (fun rect => (rect.start_point, rect.end_point, rect.color))) :=
  ⟨by decide, save_load_roundtrip store0 (fun s => s) docR "/a.pdf" wsEx (by decide)⟩

/-- C4: if no page has any rectangle, saving deletes the side-file (the
stored entry at the encoded path becomes absent), a subsequent load by the
same source file path returns none, and the save still reports success. -/
theorem save_empty_deletes_and_load_none {Img : Type} (store : WorkStore)
    (encode : String → String) (document : DocumentEntity Img)
    (file_path : String) (settings : WorkSettings)
    (h : ∀ p ∈ document.pages, p.rectangles = []) :
    (save_work_file store encode document file_path settings).1 (encode file_path)
      = none
    ∧ load_work_file (save_work_file store encode document file_path settings).1
        encode file_path = none
    ∧ (save_work_file store encode document file_path settings).2 = true := by
  have hany : (document.pages.map (fun page => page.rectangles.map
      (fun rect => (rect.start_point, rect.end_point, rect.color)))).any
      (fun item => decide (0 < item.length)) = false := by
    simp only [List.any_eq_false]
    intro item hitem
    rw [List.mem_map] at hitem
    obtain ⟨p, hp, rfl⟩ := hitem
    simp [h p hp]
  have hexp : export_rectangles document.pages = none := by
    simp [export_rectangles, hany]
  refine ⟨?_, ?_, ?_⟩ <;> simp [save_work_file, hexp, load_work_file]

/-- Witness for C4: saving the rectangle-free document `docE` into a
directory that already holds the side-file "p" deletes it and a load
returns none. -/
theorem save_empty_deletes_and_load_none_witness :
    (∀ p ∈ docE.pages, p.rectangles = [])
    ∧ ((save_work_file storeP (fun s => s) docE "p" wsEx).1 "p" = none
       ∧ load_work_file (save_work_file storeP (fun s => s) docE "p" wsEx).1
           (fun s => s) "p" = none
       ∧ (save_work_file storeP (fun s => s) docE "p" wsEx).2 = true) :=
  ⟨by decide, save_empty_deletes_and_load_none storeP (fun s => s) docE "p" wsEx
    (by decide)⟩
